import Mathlib

/-!
Verification of the aigc multi-agent host: a shallow embedding of the
task dispatcher (`src/hosts/multiagent/host_agent.py`), the part converter
(`convert_part` in the same file), the orchestrator execution loop
(`src/orchestrator/orchestrator_executor.py`), the artifact recorder
(`src/common/recorder.py`) and the lifecycle callback hub
(`src/common/callbacks.py`), with theorems about the properties the design
document states for them.

Conventions used throughout the embedding:
* Python dictionaries are association lists (`List (String × _)`); `get` with
  a default is `List.lookup`; absent keys are `Option.none`.
* Machine effects (file writes, database appends, the network round trip to a
  remote agent) are either returned as explicit effect lists or injected as
  parameters carrying their outcome, so every definition is executable.
* Python exceptions are the `Except` monad: a raised exception is `.error e`
  for an `e : PyError` naming the exception site.
* Nondeterministic inputs (wall-clock timestamps, `uuid.uuid4()` results) are
  taken as explicit arguments.
-/

namespace Aigc

/-- Untyped JSON-like Python value: the payload type flowing through the
content field of a stream item in the execution loop, through `DataPart.data`
in messages, and through the json writes of the recorder. -/
inductive PyVal where
  | str (s : String)
  | int (n : Int)
  | bool (b : Bool)
  | null
  | list (xs : List PyVal)
  | dict (entries : List (String × PyVal))

mutual

/-- Structural equality on `PyVal`, mirroring Python `==` on plain data
(needed for the semantics of the `in` operator on lists). -/
def PyVal.beq : PyVal → PyVal → Bool
  | .str a, .str b => a == b
  | .int a, .int b => a == b
  | .bool a, .bool b => a == b
  | .null, .null => true
  | .list a, .list b => PyVal.beqList a b
  | .dict a, .dict b => PyVal.beqDict a b
  | _, _ => false

/-- Elementwise `PyVal.beq` on lists. -/
def PyVal.beqList : List PyVal → List PyVal → Bool
  | [], [] => true
  | x :: xs, y :: ys => PyVal.beq x y && PyVal.beqList xs ys
  | _, _ => false

/-- Elementwise `PyVal.beq` on string-keyed association lists. -/
def PyVal.beqDict : List (String × PyVal) → List (String × PyVal) → Bool
  | [], [] => true
  | (k, x) :: xs, (k2, y) :: ys => k == k2 && PyVal.beq x y && PyVal.beqDict xs ys
  | _, _ => false

end

/-- Exceptions raised (or raisable) by the embedded code. Each constructor
names one concrete raise site or exception class. -/
inductive PyError where
  /-- Raise site `host_agent.py:203` — `ValueError`, message: Agent {agent_name} not found. -/
  | unknownAgent (name : String)
  /-- Raise site `host_agent.py:208` — `ValueError`, message: Client not available for {agent_name}. -/
  | clientUnavailable (name : String)
  /-- Raise site `host_agent.py:248` — `ValueError`, message: task is cancelled. -/
  | remoteTaskCanceled (name id : String)
  /-- Raise site `host_agent.py:251` — `ValueError`, message: task failed. -/
  | remoteTaskFailed (name id : String)
  /-- Raise site `host_agent.py:230` — the local variable `task` is only
  annotated (line 212), never assigned, when `task.parts` is read in the
  plain-`Message` branch: Python raises `UnboundLocalError`. -/
  | unboundLocalTask
  /-- Raise site `host_agent.py:292` — `part.kind` on the `a2a.types.Part`
  wrapper: `Part` is a pydantic `RootModel` whose payload lives in `part.root`,
  and the wrapper itself has no `kind` attribute, so the read raises
  `AttributeError` (the surrounding branches correctly use `part.root.kind`). -/
  | attributeErrorPartKind
  /-- KeyError from indexing a dict with an absent key. -/
  | keyError (k : String)
  /-- TypeError from an operation applied to a value of the wrong shape
  (e.g. `json.loads` on a non-string, indexing a string with a string). -/
  | typeError
  /-- Parse failure `json.JSONDecodeError` from `json.loads` on a non-JSON string. -/
  | jsonDecodeError (s : String)
  /-- pydantic validation error (e.g. `TextPart(text=...)` with a non-string). -/
  | validationError
  /-- OSError from a file-system write. -/
  | osError
  /-- Database error from a dialogue-store append. -/
  | dbError

/-! ## Data model of the a2a protocol surface used by the dispatcher
(`a2a.types`: `TaskState`, `Part`, `Message`, `Task`). -/

/-- Model of `a2a.types.TaskState`. -/
inductive TaskState where
  | submitted | working | input_required | completed | canceled | failed | unknown
deriving DecidableEq, BEq

/-- Payload of an `a2a.types.Part` (the discriminated union under `Part.root`).
`other` stands for a part whose `kind` discriminator is outside the union of
`text`/`data`/`file` — the case the fallback branch of `convert_part` is
written for. -/
inductive PartRoot where
  | text (s : String)
  | data (d : PyVal)
  /-- File part: `name`, `mimeType`, and the base64-encoded `bytes` payload. -/
  | file (name mimeType bytes : String)
  | other (kind : String)

/-- Model of `a2a.types.Part`: the pydantic `RootModel` wrapper around the union. -/
structure Part where
  root : PartRoot

/-- Model of `a2a.types.Message` (the fields the embedded code reads or builds). -/
structure Message where
  role : String
  parts : List Part
  messageId : String
  contextId : Option String := none
  taskId : Option String := none

/-- One artifact attached to a task (`a2a` artifact: the dispatcher only reads
its `parts`). -/
structure Artifact where
  parts : List Part

/-- Model of `a2a.types.TaskStatus`: the task state plus an optional status message. -/
structure TaskStatus where
  state : TaskState
  message : Option Message := none

/-- Model of `a2a.types.Task` as read by the dispatcher: `id`, optional `contextId`,
`status`, and the artifact list (`None` is the empty list). -/
structure Task where
  id : String
  contextId : Option String := none
  status : TaskStatus
  artifacts : List Artifact := []

/-! ## Part converter (`host_agent.py`, `convert_part` / `convert_parts`) -/

/-- Value produced by `convert_part`: a Python string, a raw data payload
(`part.root.data` returned unchanged), or a fresh `DataPart` object (the
file-reference case builds a `DataPart` wrapping the one-entry mapping
artifact-file-id to file_id). -/
inductive ConvValue where
  | pyStr (s : String)
  | pyData (d : PyVal)
  | dataPart (d : PyVal)

/-- One `tool_context.save_artifact(file_id, file_part)` call recorded during
conversion; the payload is the base64 `bytes` string of the source part (the
`base64.b64decode` of an external library is not modelled — no claim concerns
the decoded byte values, only which artifact id is saved). -/
structure ArtifactSave where
  file_id : String
  mimeType : String
  bytes : String

/-- Flags of `tool_context.actions` written by the dispatcher and the converter. -/
structure ToolActions where
  skip_summarization : Bool
  escalate : Bool
deriving DecidableEq

/-- Embedding of `convert_part` (`host_agent.py:273-292`). Branches on
`part.root.kind`; the `file` branch saves an artifact, sets both action flags
and returns the reference object; the fallback line, which formats the
diagnostic string Unknown type from `part.kind`, reads the nonexistent `kind`
attribute of the wrapper and raises `AttributeError`
(see `PyError.attributeErrorPartKind`). -/
def convert_part (acts : ToolActions) (p : Part) :
    Except PyError ConvValue × ToolActions × List ArtifactSave :=
  match p.root with
  | .text s => (.ok (.pyStr s), acts, [])
  | .data d => (.ok (.pyData d), acts, [])
  | .file name mimeType bytes =>
      (.ok (.dataPart (.dict [("artifact-file-id", .str name)])),
       { skip_summarization := true, escalate := true },
       [⟨name, mimeType, bytes⟩])
  | .other _ => (.error .attributeErrorPartKind, acts, [])

/-- A part whose `kind` discriminator is one of the three of the protocol
union (`text`, `data`, `file`) — the parts `convert_part` handles without
reaching its fallback line. -/
def knownKind (p : Part) : Bool :=
  match p.root with
  | .other _ => false
  | _ => true

/-- Embedding of `convert_parts` (`host_agent.py:266-270`): converts parts in
order, threading the action flags and accumulating artifact saves; a raised
exception aborts the remaining conversions and propagates. -/
def convert_parts (acts : ToolActions) :
    List Part → Except PyError (List ConvValue) × ToolActions × List ArtifactSave
  | [] => (.ok [], acts, [])
  | p :: ps =>
      match convert_part acts p with
      | (.error e, a, effs) => (.error e, a, effs)
      | (.ok v, a, effs) =>
          match convert_parts a ps with
          | (.error e, a2, effs2) => (.error e, a2, effs ++ effs2)
          | (.ok vs, a2, effs2) => (.ok (v :: vs), a2, effs ++ effs2)

/-! ## Task dispatcher (`HostAgent.send_message`, `host_agent.py:187-263`) -/

/-- Session-state keys the dispatcher reads and writes
(`tool_context.state`; an absent key is `none`). -/
structure SessionState where
  agent : Option String := none
  task_id : Option String := none
  context_id : Option String := none
  message_id : Option String := none
  session_active : Option Bool := none
deriving DecidableEq

/-- Continuation identifiers placed on the outgoing `Message` of a dispatch
request (`host_agent.py:215-227`), together with the message text. -/
structure OutRequest where
  messageId : String
  taskId : Option String
  contextId : Option String
  text : String
deriving DecidableEq

/-- Reply of the remote client method `send_message`: either a `Task` or a plain
`Message` (direct reply without task semantics). The client handle itself
(`RemoteAgentConnections`, a file not part of the analysed sources) is
modelled by this injected response value. -/
inductive A2AResponse where
  | message (m : Message)
  | task (t : Task)

/-- Everything observable about one `HostAgent.send_message` call: the request
that went out (if the call got that far), the returned value or raised
exception, the session state at return/raise time, the action flags, and the
artifact saves performed by part conversion. -/
structure DispatchOutcome where
  request : Option OutRequest
  result : Except PyError (List ConvValue)
  state : SessionState
  actions : ToolActions
  saves : List ArtifactSave

/-- Terminal task states of `host_agent.py:233-238`: the list whose complement
defines `session_active`. -/
def inactiveStates : List TaskState :=
  [TaskState.completed, TaskState.canceled, TaskState.failed, TaskState.unknown]

/-- The `message_id` actually sent (`host_agent.py:211-214`): the value from
session state when present and truthy (Python `if not messageId` treats the
empty string like an absent value), else the freshly drawn uuid. -/
def effectiveMessageId (st : SessionState) (fresh : String) : String :=
  match st.message_id with
  | some m => if m = "" then fresh else m
  | none => fresh

/-- Session state after the updates of the dispatcher for a returned task
(`host_agent.py:205` for `agent`, `233-241` for `session_active`,
`context_id` — skipped for an absent or empty `task.contextId`, Python
truthiness — and `task_id`). -/
def postState (an : String) (t : Task) (st : SessionState) : SessionState :=
  let st := { st with agent := some an }
  let st := { st with
    session_active := some (!(inactiveStates.contains t.status.state)) }
  let st :=
    match t.contextId with
    | some c => if c = "" then st else { st with context_id := some c }
    | none => st
  { st with task_id := some t.id }

/-- The parts converted into the dispatch result (`host_agent.py:252-262`):
those of the status message of the task, then those of each artifact, in
order. -/
def taskParts (t : Task) : List Part :=
  (match t.status.message with
    | some m => m.parts
    | none => []) ++ (t.artifacts.map (·.parts)).flatten

/-- Embedding of `HostAgent.send_message` (`host_agent.py:187-263`).

* `conns` is `self.remote_agent_connections`: an association list from agent
  name to an optional client handle (`none` models a null/falsy handle, the
  case `if not client` guards).
* `freshMessageId` is the `str(uuid.uuid4())` drawn at line 214 when the
  session state holds no (truthy) `message_id`; note the generated id is never
  written back into the state.
* `response` is the reply of the remote client.

The control flow mirrors the source line by line: unknown-agent check, write
of the agent key of the session state, null-client check, continuation-id
reads, request build,
plain-`Message` branch (which raises `UnboundLocalError`, see
`PyError.unboundLocalTask`), `session_active` computation, conditional
`context_id`/`task_id` writes, the `input_required`/`canceled`/`failed`
branches, and conversion of status-message and artifact parts. -/
def send_message (conns : List (String × Option Unit)) (freshMessageId : String)
    (response : A2AResponse) (agent_name messageText : String)
    (st : SessionState) (acts : ToolActions) : DispatchOutcome :=
  match List.lookup agent_name conns with
  | none => ⟨none, .error (.unknownAgent agent_name), st, acts, []⟩
  | some client =>
    let st := { st with agent := some agent_name }
    match client with
    | none => ⟨none, .error (.clientUnavailable agent_name), st, acts, []⟩
    | some _ =>
      let req : OutRequest :=
        ⟨effectiveMessageId st freshMessageId, st.task_id, st.context_id, messageText⟩
      match response with
      | .message _ => ⟨some req, .error .unboundLocalTask, st, acts, []⟩
      | .task t =>
        let stDone := postState agent_name t st
        if t.status.state = .input_required then
          let acts : ToolActions := { skip_summarization := true, escalate := true }
          let (res, acts, saves) := convert_parts acts (taskParts t)
          ⟨some req, res, stDone, acts, saves⟩
        else if t.status.state = .canceled then
          ⟨some req, .error (.remoteTaskCanceled agent_name t.id), stDone, acts, []⟩
        else if t.status.state = .failed then
          ⟨some req, .error (.remoteTaskFailed agent_name t.id), stDone, acts, []⟩
        else
          let (res, acts, saves) := convert_parts acts (taskParts t)
          ⟨some req, res, stDone, acts, saves⟩

/-! ## Execution loop (`OrchestratorAgentExecutor.execute`,
`orchestrator_executor.py:157-243`) -/

/-- Python `in` on an untyped value: key membership for a dict, substring test
for a string, elementwise equality for a list, `TypeError` otherwise. -/
def pyContains (k : String) : PyVal → Except PyError Bool
  | .dict d => .ok (List.lookup k d).isSome
  | .str s => .ok (decide (List.IsInfix k.toList s.toList))
  | .list xs => .ok (xs.any (PyVal.beq (.str k)))
  | _ => .error .typeError

/-- Python `v[k]` for a string key: dict lookup (raising `KeyError` when the
key is absent), `TypeError` on any other shape. -/
def pyIndex (v : PyVal) (k : String) : Except PyError PyVal :=
  match v with
  | .dict d =>
      match List.lookup k d with
      | some x => .ok x
      | none => .error (.keyError k)
  | _ => .error .typeError

/-- Semantics of `json.loads` applied to an untyped value: defers to the
injected string
parser `parse` (the claims never depend on the concrete JSON grammar), raises
`TypeError` when the argument is not a string. -/
def json_loads (parse : String → Except PyError PyVal) (v : PyVal) :
    Except PyError PyVal :=
  match v with
  | .str s => parse s
  | _ => .error .typeError

/-- The guard of `orchestrator_executor.py:211-214`: the key response is
contained in the content mapping, and the key result is contained in the
response entry of that mapping, combined with the short-circuit Python
`and`. -/
def formGuard (d : List (String × PyVal)) : Except PyError Bool :=
  match pyContains "response" (.dict d) with
  | .error e => .error e
  | .ok b1 =>
    if b1 then
      match pyIndex (.dict d) "response" with
      | .error e => .error e
      | .ok r => pyContains "result" r
    else .ok false

/-- The expression at `orchestrator_executor.py:215` — `json.loads` applied
to the result field nested under the response field of the content mapping:
index twice, then parse. -/
def formPayload (parse : String → Except PyError PyVal)
    (d : List (String × PyVal)) : Except PyError PyVal :=
  match pyIndex (.dict d) "response" with
  | .error e => .error e
  | .ok r =>
    match pyIndex r "result" with
    | .error e => .error e
    | .ok v => json_loads parse v

/-- One item of the `orchestrator.stream` async stream consumed by `execute`:
the progress messages queued by the callback hub since the previous item
(flushed at the top of the loop body), the `is_task_complete` flag
(`event.is_final_response()`), and the `content` payload. -/
structure StreamItem where
  msgs : List String
  is_task_complete : Bool
  content : PyVal

/-- Outward event emitted by `execute` on its `TaskUpdater`. -/
inductive Emit where
  /-- Non-final `TaskState.working` status update carrying one flushed
  progress message (`orchestrator_executor.py:178-195`). -/
  | statusWorking (text : String)
  /-- Artifact added by `_find_and_add_images` for an image path found inside
  non-final content (`orchestrator_executor.py:142-144`). -/
  | fileArtifact (name path : String)
  /-- Final `TaskState.input_required` status update carrying the parsed form
  payload (`orchestrator_executor.py:216-224`). -/
  | statusInputRequired (data : PyVal)
  /-- Final `TaskState.failed` status update with the text
  `Reaching an unexpected state` (`orchestrator_executor.py:227-235`). -/
  | statusFailed
  /-- Artifact holding one text part (`updater.add_artifact` with the name
  form, `orchestrator_executor.py:239-241`). -/
  | textArtifact (name text : String)
  /-- Call of `updater.complete` — final `TaskState.completed`
  (`orchestrator_executor.py:242`). -/
  | completedEmit

/-- Terminal transitions among the emitted events: the three final states of
the turn (`input_required`, `failed`, `completed`). -/
def isTerminalEmit : Emit → Bool
  | .statusInputRequired _ => true
  | .statusFailed => true
  | .completedEmit => true
  | _ => false

/-- Embedding of the loop body of `OrchestratorAgentExecutor.execute`
(`orchestrator_executor.py:173-243`) as a recursion over the items of the
stream,
returning the list of emitted events (or the propagated exception).

* `parse` is `json.loads` on strings, injected (see `json_loads`).
* `findImages` abstracts `_find_and_add_images`: the (name, path) pairs of
  image files that the recursive traversal of a non-final content value finds
  on disk and attaches as artifacts; the traversal swallows its own read and
  parse errors (`orchestrator_executor.py:121-125,145-146`), so the non-final
  branch raises nothing.

Branch structure of a final item: a dict passing the `response`/`result` guard
is parsed and emitted as a final `input_required` status, and the loop
`continue`s to the next item; a dict failing the guard emits a final `failed`
status and `break`s; a string emits one artifact named `form` plus
`complete()` and `break`s; `TextPart(text=...)` on a non-string,
non-dict content would raise a pydantic validation error. -/
def executeLoop (parse : String → Except PyError PyVal)
    (findImages : PyVal → List (String × String)) :
    List StreamItem → Except PyError (List Emit)
  | [] => .ok []
  | item :: rest =>
    let flush := item.msgs.map Emit.statusWorking
    if item.is_task_complete then
      match item.content with
      | .dict d =>
          match formGuard d with
          | .error e => .error e
          | .ok true =>
              match formPayload parse d with
              | .error e => .error e
              | .ok data =>
                  (executeLoop parse findImages rest).map
                    (fun es => flush ++ [Emit.statusInputRequired data] ++ es)
          | .ok false => .ok (flush ++ [Emit.statusFailed])
      | .str s => .ok (flush ++ [Emit.textArtifact "form" s, Emit.completedEmit])
      | _ => .error .validationError
    else
      let arts := (findImages item.content).map (fun nf => Emit.fileArtifact nf.1 nf.2)
      (executeLoop parse findImages rest).map (fun es => flush ++ arts ++ es)

/-! ## Artifact recorder (`src/common/recorder.py`) -/

/-- The rotating sequence alphabet `Recorder.tags`
(`recorder.py:16`): 10 digits, 26 upper-case, 26 lower-case letters. -/
def tags : List Char :=
  "0123456789ABCDEFGHIJKLMNOPQRSTUVWXYZabcdefghijklmnopqrstuvwxyz".toList

/-- Mutable sequence state of a `Recorder`: the formatted millisecond
timestamp of the previous `make_filename` call and the rotation index
(`recorder.py:14-15`). -/
structure RecorderState where
  last_formatted_time : Option String := none
  idx : Nat := 0
deriving DecidableEq

/-- Embedding of `Recorder.make_filename` (`recorder.py:47-58`). The formatted
timestamp (`get_formatted_time()`, a `MMDD-HHMMSS.mmm` string read from the
wall clock) is an explicit argument. Returns the updated sequence state and
the generated file name `<formatted_time>.<tag>-<filename>` (the `self.root`
directory prefix of the final `os.path.join` is carried separately by the
save operations). -/
def make_filename (st : RecorderState) (formatted_time filename : String) :
    RecorderState × String :=
  let st :=
    if st.last_formatted_time = some formatted_time then
      { st with idx := (st.idx + 1) % tags.length }
    else
      { last_formatted_time := some formatted_time, idx := 0 }
  let tag := tags.getD st.idx ' '
  (st, formatted_time ++ "." ++ tag.toString ++ "-" ++ filename)

/-- Sequence state after `n` successive `make_filename` calls, all observing
the same formatted timestamp `t`, starting from `st`. -/
def stateAfter (st : RecorderState) (t : String) : Nat → RecorderState
  | 0 => st
  | n + 1 => (make_filename (stateAfter st t n) t "x").1

/-- Rotation index assigned to the `n`-th call (0-based) of a run of
`make_filename` calls sharing the formatted timestamp `t`. -/
def idxOfCall (st : RecorderState) (t : String) (n : Nat) : Nat :=
  (stateAfter st t (n + 1)).idx

/-- Sequence tag character assigned to the `n`-th call (0-based) of a run of
`make_filename` calls sharing the formatted timestamp `t`. -/
def tagOfCall (st : RecorderState) (t : String) (n : Nat) : Char :=
  tags.getD (idxOfCall st t n) ' '

/-- File-system effect performed by a recorder save operation. -/
inductive FsEffect where
  /-- Call of `ensure_root_exist` — create the run directory if missing
  (`recorder.py:42-45`). -/
  | ensureDir (dir : String)
  /-- Write of `text` to `path` by `save_text` (`recorder.py:65-66`). -/
  | writeText (path text : String)
  /-- Image write by `cv2.imwrite` (`recorder.py:73`; pixel payload outside
  the model). -/
  | writeImage (path : String)
  /-- Yaml write by `save_yaml` (`recorder.py:80`). -/
  | writeYaml (path : String) (data : PyVal)
  /-- Json write by `save_json` (`recorder.py:87`). -/
  | writeJson (path : String) (data : PyVal) (escape : Bool)

/-- Embedding of `Recorder.save_text` (`recorder.py:60-66`). `with_record` is
`config.with_record`; when it is false the method returns before touching the
directory, the file, or the sequence state. `root` is `self.root`, `t` the
formatted timestamp observed by the inner `make_filename` call. -/
def save_text (with_record : Bool) (root : String) (st : RecorderState)
    (t filename text : String) : RecorderState × List FsEffect :=
  if !with_record then (st, [])
  else
    let (st, fn) := make_filename st t filename
    (st, [.ensureDir root, .writeText (root ++ "/" ++ fn) text])

/-- Embedding of `Recorder.save_image` (`recorder.py:68-73`). -/
def save_image (with_record : Bool) (root : String) (st : RecorderState)
    (t filename : String) : RecorderState × List FsEffect :=
  if !with_record then (st, [])
  else
    let (st, fn) := make_filename st t filename
    (st, [.ensureDir root, .writeImage (root ++ "/" ++ fn)])

/-- Embedding of `Recorder.save_yaml` (`recorder.py:75-80`). -/
def save_yaml (with_record : Bool) (root : String) (st : RecorderState)
    (t filename : String) (data : PyVal) : RecorderState × List FsEffect :=
  if !with_record then (st, [])
  else
    let (st, fn) := make_filename st t filename
    (st, [.ensureDir root, .writeYaml (root ++ "/" ++ fn) data])

/-- Embedding of `Recorder.save_json` (`recorder.py:82-87`). -/
def save_json (with_record : Bool) (root : String) (st : RecorderState)
    (t filename : String) (data : PyVal) (escape : Bool) :
    RecorderState × List FsEffect :=
  if !with_record then (st, [])
  else
    let (st, fn) := make_filename st t filename
    (st, [.ensureDir root, .writeJson (root ++ "/" ++ fn) data escape])

/-! ## Lifecycle callback hub (`src/common/callbacks.py`) -/

/-- Python `s[-6:]`: the last six characters of `s` (all of `s` when shorter). -/
def lastSix (s : String) : String :=
  String.mk (s.toList.drop (s.toList.length - 6))

/-- One row appended to the dialogue store by a hook (the fields of
`DialogueRecord` that a hook fills; the timestamp is outside the model). -/
structure HookRecord where
  user_id : String
  session_id : String
  app_name : String
  invocation_id : String
  agent_name : String
  tag : String
  name : String
  data : PyVal

/-- Environment a hook runs against: the outcome of a recorder write for a
given file name (`recorder.save_json`, which raises `OSError` on an I/O
failure and succeeds silently when `with_record` is off), whether the global
dialogue store has been opened (`_dialogue_history is not None`), and the
outcome of a store append (`DialogueHistory.append`, which returns the new row
id or raises a database error). -/
structure HookEnv where
  recorderWrite : String → Except PyError Unit
  history_open : Bool
  appendRecord : HookRecord → Except PyError Nat

/-- Session attribution fields a hook copies into its record:
user id, session id, application name. -/
structure HookCtx where
  user_id : String
  session_id : String
  app_name : String

/-- Embedding of the hook `before_agent` (`callbacks.py:37-53`): write the
state snapshot through the recorder under
`<invocation_id[-6:]>.BA.<agent_name>.state.json`, then, when the store is
open, append a record tagged `before_agent` named `state`. There is no
exception handler: a failure of either write propagates to the caller. -/
def before_agent (env : HookEnv) (ctx : HookCtx)
    (invocation_id agent_name : String) (state_dict : PyVal) :
    Except PyError Unit :=
  match env.recorderWrite
      (lastSix invocation_id ++ ".BA." ++ agent_name ++ ".state.json") with
  | .error e => .error e
  | .ok _ =>
    if env.history_open then
      match env.appendRecord
          ⟨ctx.user_id, ctx.session_id, ctx.app_name, invocation_id, agent_name,
            "before_agent", "state", state_dict⟩ with
      | .error e => .error e
      | .ok _ => .ok ()
    else .ok ()

/-- Embedding of the hook `after_tool` (`callbacks.py:163-180`): write the
normalized tool response through the recorder under
`<invocation_id[-6:]>.AT.<agent_name>.<tool_name>.response.json`, then, when
the store is open, append a record tagged `after_tool` named after the tool.
(`to_dict` is the identity on the plain data values of the model.) As in
every other hook there is no exception handler. -/
def after_tool (env : HookEnv) (ctx : HookCtx)
    (invocation_id agent_name tool_name : String) (tool_response : PyVal) :
    Except PyError Unit :=
  match env.recorderWrite
      (lastSix invocation_id ++ ".AT." ++ agent_name ++ "." ++ tool_name
        ++ ".response.json") with
  | .error e => .error e
  | .ok _ =>
    if env.history_open then
      match env.appendRecord
          ⟨ctx.user_id, ctx.session_id, ctx.app_name, invocation_id, agent_name,
            "after_tool", tool_name, tool_response⟩ with
      | .error e => .error e
      | .ok _ => .ok ()
    else .ok ()

/-! ## Concrete fixtures used by counterexample and code-bug theorems -/

/-- A registry with one reachable remote agent. -/
def conns0 : List (String × Option Unit) := [("toutiao_agent", some ())]

/-- Action flags at the start of a tool call. -/
def acts0 : ToolActions := ⟨false, false⟩

/-- A task returned in the `canceled` state (used to witness the error
conditions of the dispatcher). -/
def tCanceled : Task := ⟨"T1", some "C1", ⟨.canceled, none⟩, []⟩

/-- A task returned in the `input_required` state. -/
def tInputRequired : Task := ⟨"T1", some "C1", ⟨.input_required, none⟩, []⟩

/-- The injected `json.loads` used by the concrete two-form-steps stream. -/
def parse0 : String → Except PyError PyVal := fun _ => .ok (.dict [])

/-- The injected image scan used by the concrete streams (finds nothing). -/
def find0 : PyVal → List (String × String) := fun _ => []

/-- A final stream item whose content passes the form guard. -/
def formItem : StreamItem := ⟨[], true, .dict [("response", .dict [("result", .str "x")])]⟩

/-! ## Shared lemmas -/

/-- Unfolding equation for `convert_parts` on a non-empty list. -/
theorem convert_parts_cons (acts : ToolActions) (p : Part) (ps : List Part) :
    convert_parts acts (p :: ps) =
      match convert_part acts p with
      | (.error e, a, effs) => (.error e, a, effs)
      | (.ok v, a, effs) =>
          match convert_parts a ps with
          | (.error e, a2, effs2) => (.error e, a2, effs ++ effs2)
          | (.ok vs, a2, effs2) => (.ok (v :: vs), a2, effs ++ effs2) := rfl

/-- The only exception part conversion can raise is the `AttributeError` of
the fallback branch — never one of the dispatch-layer errors. -/
theorem convert_parts_error_eq (ps : List Part) :
    ∀ (acts : ToolActions) (e : PyError),
      (convert_parts acts ps).1 = .error e → e = .attributeErrorPartKind := by
  induction ps with
  | nil =>
    intro acts e h
    simp [convert_parts] at h
  | cons p ps ih =>
    intro acts e h
    obtain ⟨pr⟩ := p
    rw [convert_parts_cons] at h
    cases pr <;> simp only [convert_part] at h
    case other k =>
      simp at h
      exact h.symm
    case text s =>
      rcases h2 : convert_parts acts ps with ⟨r, a2, f2⟩
      rw [h2] at h
      cases r with
      | error e2 =>
        simp at h
        subst h
        exact ih acts e2 (by rw [h2])
      | ok vs => simp at h
    case data d =>
      rcases h2 : convert_parts acts ps with ⟨r, a2, f2⟩
      rw [h2] at h
      cases r with
      | error e2 =>
        simp at h
        subst h
        exact ih acts e2 (by rw [h2])
      | ok vs => simp at h
    case file name mt bs =>
      rcases h2 : convert_parts ⟨true, true⟩ ps with ⟨r, a2, f2⟩
      rw [h2] at h
      cases r with
      | error e2 =>
        simp at h
        subst h
        exact ih ⟨true, true⟩ e2 (by rw [h2])
      | ok vs => simp at h

/-- Converting a list of parts of known kinds succeeds. -/
theorem convert_parts_ok_of_known (ps : List Part) :
    ∀ acts : ToolActions, (∀ p ∈ ps, knownKind p = true) →
      ∃ vs a effs, convert_parts acts ps = (.ok vs, a, effs) := by
  induction ps with
  | nil =>
    intro acts _
    exact ⟨[], acts, [], rfl⟩
  | cons p ps ih =>
    intro acts h
    have hp := h p (List.mem_cons_self p ps)
    have hps : ∀ q ∈ ps, knownKind q = true :=
      fun q hq => h q (List.mem_cons_of_mem p hq)
    obtain ⟨pr⟩ := p
    rw [convert_parts_cons]
    cases pr
    case text s =>
      rcases ih acts hps with ⟨vs, a, effs, h2⟩
      simp only [convert_part, h2]
      exact ⟨.pyStr s :: vs, a, effs, rfl⟩
    case data d =>
      rcases ih acts hps with ⟨vs, a, effs, h2⟩
      simp only [convert_part, h2]
      exact ⟨.pyData d :: vs, a, effs, rfl⟩
    case file name mt bs =>
      rcases ih ⟨true, true⟩ hps with ⟨vs, a, effs, h2⟩
      simp only [convert_part, h2]
      exact ⟨.dataPart (.dict [("artifact-file-id", .str name)]) :: vs, a,
        ⟨name, mt, bs⟩ :: effs, rfl⟩
    case other k =>
      simp [knownKind] at hp

/-- Starting conversion with both action flags set leaves them set: the
converter only ever turns the flags on (file parts), never off. -/
theorem convert_parts_acts_preserved (ps : List Part) :
    (convert_parts ⟨true, true⟩ ps).2.1 = ⟨true, true⟩ := by
  induction ps with
  | nil => rfl
  | cons p ps ih =>
    obtain ⟨pr⟩ := p
    rw [convert_parts_cons]
    cases pr <;> simp only [convert_part] <;>
    · rcases h2 : convert_parts ⟨true, true⟩ ps with ⟨r, a2, f2⟩
      rw [h2] at ih
      cases r <;> exact ih

/-- Dispatch with an unregistered agent name: the check at `host_agent.py:202`
raises before any state write or request build. -/
theorem send_message_unknown (conns : List (String × Option Unit))
    (f : String) (r : A2AResponse) (an mt : String)
    (st : SessionState) (acts : ToolActions)
    (h : List.lookup an conns = none) :
    send_message conns f r an mt st acts =
      ⟨none, .error (.unknownAgent an), st, acts, []⟩ := by
  unfold send_message
  rw [h]

/-- Dispatch with a registered name whose client handle is null: the check at
`host_agent.py:207` raises after the write of the agent key. -/
theorem send_message_unavailable (conns : List (String × Option Unit))
    (f : String) (r : A2AResponse) (an mt : String)
    (st : SessionState) (acts : ToolActions)
    (h : List.lookup an conns = some none) :
    send_message conns f r an mt st acts =
      ⟨none, .error (.clientUnavailable an), { st with agent := some an }, acts, []⟩ := by
  unfold send_message
  rw [h]

/-- The effective message id ignores every session-state field other than
`message_id` (in particular the write of the agent key at `host_agent.py:205`
does not change it). -/
theorem effectiveMessageId_agent_update (st : SessionState) (x : Option String)
    (f : String) :
    effectiveMessageId { st with agent := x } f = effectiveMessageId st f := by
  obtain ⟨a1, a2, a3, a4, a5⟩ := st
  cases a4 <;> rfl

/-- With a resolved client, the outgoing request always carries the effective
message id and the continuation identifiers read from session state. -/
theorem send_message_request_eq (conns : List (String × Option Unit))
    (f : String) (r : A2AResponse) (an mt : String)
    (st : SessionState) (acts : ToolActions)
    (h : List.lookup an conns = some (some ())) :
    (send_message conns f r an mt st acts).request =
      some ⟨effectiveMessageId st f, st.task_id, st.context_id, mt⟩ := by
  unfold send_message
  rw [h]
  cases r with
  | message m => simp [effectiveMessageId_agent_update]
  | task t => cases hs : t.status.state <;> simp [hs, effectiveMessageId_agent_update]

/-- With a resolved client and a returned task, the session state at return
(or raise) time is `postState`. -/
theorem send_message_task_state (conns : List (String × Option Unit))
    (f : String) (t : Task) (an mt : String)
    (st : SessionState) (acts : ToolActions)
    (h : List.lookup an conns = some (some ())) :
    (send_message conns f (.task t) an mt st acts).state = postState an t st := by
  unfold send_message
  rw [h]
  have hpost : postState an t { st with agent := some an } = postState an t st := rfl
  cases hs : t.status.state <;> simp [hs, hpost]

/-- With a resolved client and a returned task, the dispatch result branches
on the task state exactly as `host_agent.py:242-263`. -/
theorem send_message_task_result (conns : List (String × Option Unit))
    (f : String) (t : Task) (an mt : String)
    (st : SessionState) (acts : ToolActions)
    (h : List.lookup an conns = some (some ())) :
    (send_message conns f (.task t) an mt st acts).result =
      if t.status.state = .input_required then
        (convert_parts ⟨true, true⟩ (taskParts t)).1
      else if t.status.state = .canceled then .error (.remoteTaskCanceled an t.id)
      else if t.status.state = .failed then .error (.remoteTaskFailed an t.id)
      else (convert_parts acts (taskParts t)).1 := by
  unfold send_message
  rw [h]
  cases hs : t.status.state <;> simp [hs]

/-- With a resolved client and a returned task in `input_required`, the action
flags at return time are those threaded through conversion, starting from both
set (`host_agent.py:243-245`). -/
theorem send_message_task_actions (conns : List (String × Option Unit))
    (f : String) (t : Task) (an mt : String)
    (st : SessionState) (acts : ToolActions)
    (h : List.lookup an conns = some (some ()))
    (hs : t.status.state = .input_required) :
    (send_message conns f (.task t) an mt st acts).actions =
      (convert_parts ⟨true, true⟩ (taskParts t)).2.1 := by
  unfold send_message
  rw [h]
  simp [hs]

/-! ## Claim theorems -/

/-- C4 (code-bug evidence): when the remote client returns a plain `Message`,
`send_message` does not convert and return the parts of that message — the
branch returning `convert_parts` of `task.parts` (`host_agent.py:230`) reads the
local variable `task`, which at that point is only annotated, never assigned,
so Python raises `UnboundLocalError`. At this concrete input the dispatch
raises, returns no converted parts, and performs none of the
task-state-machine writes: `session_active`, `task_id` and `context_id` are
all still absent from the session state. -/
theorem send_message_plain_message_raises_unbound_local :
    send_message conns0 "uuid-1"
        (.message ⟨"agent", [⟨.text "direct reply"⟩], "m1", none, none⟩)
        "toutiao_agent" "hi" {} acts0 =
      ⟨some ⟨"uuid-1", none, none, "hi"⟩, .error .unboundLocalTask,
        ⟨some "toutiao_agent", none, none, none, none⟩, acts0, []⟩ := rfl

/-- C5 (code-bug evidence): `convert_part` handles the three protocol kinds as
specified — `text` yields the string, `data` the structured object unchanged,
`file` the reference object mapping artifact-file-id to the file id, with the
artifact saved and both escalation flags set — but on a part of any other kind
the fallback at `host_agent.py:292` reads `part.kind` on the `Part` wrapper,
which has no such attribute (the discriminator lives at `part.root.kind`), so
instead of returning the diagnostic string Unknown type the call raises
`AttributeError`. -/
theorem convert_part_unknown_kind_raises :
    convert_part acts0 ⟨.text "hello"⟩ = (.ok (.pyStr "hello"), acts0, []) ∧
    convert_part acts0 ⟨.data (.dict [("a", .int 1)])⟩ =
      (.ok (.pyData (.dict [("a", .int 1)])), acts0, []) ∧
    convert_part acts0 ⟨.file "img.png" "image/png" "QUJD"⟩ =
      (.ok (.dataPart (.dict [("artifact-file-id", .str "img.png")])),
        ⟨true, true⟩, [⟨"img.png", "image/png", "QUJD"⟩]) ∧
    convert_part acts0 ⟨.other "video"⟩ =
      (.error .attributeErrorPartKind, acts0, []) :=
  ⟨rfl, rfl, rfl, rfl⟩

/-- Part conversion either returns a value list or raises the
`AttributeError` of the converter. -/
theorem convert_parts_fst_cases (acts : ToolActions) (ps : List Part) :
    (∃ vs, (convert_parts acts ps).1 = .ok vs) ∨
    (convert_parts acts ps).1 = .error .attributeErrorPartKind := by
  rcases h : (convert_parts acts ps).1 with e | vs
  · have he := convert_parts_error_eq ps acts e h
    subst he
    exact .inr rfl
  · exact .inl ⟨vs, rfl⟩

/-- Exhaustive shape of the dispatch result once the client is resolved:
the unbound-local raise of the plain-`Message` branch, the two remote-failure
raises, a successful value list, or the `AttributeError` of the converter. -/
theorem send_message_resolved_result (conns : List (String × Option Unit))
    (f : String) (r : A2AResponse) (an mt : String)
    (st : SessionState) (acts : ToolActions)
    (hlk : List.lookup an conns = some (some ())) :
    (send_message conns f r an mt st acts).result = .error .unboundLocalTask ∨
    (∃ t, r = .task t ∧ t.status.state = .canceled ∧
      (send_message conns f r an mt st acts).result =
        .error (.remoteTaskCanceled an t.id)) ∨
    (∃ t, r = .task t ∧ t.status.state = .failed ∧
      (send_message conns f r an mt st acts).result =
        .error (.remoteTaskFailed an t.id)) ∨
    (∃ vs, (send_message conns f r an mt st acts).result = .ok vs) ∨
    (send_message conns f r an mt st acts).result = .error .attributeErrorPartKind := by
  cases r with
  | message m =>
    left
    unfold send_message
    rw [hlk]
  | task t =>
    have hres := send_message_task_result conns f (t := t) an mt st acts hlk
    cases hs : t.status.state
    case canceled =>
      refine .inr (.inl ⟨t, rfl, hs, ?_⟩)
      rw [hres]
      simp [hs]
    case failed =>
      refine .inr (.inr (.inl ⟨t, rfl, hs, ?_⟩))
      rw [hres]
      simp [hs]
    case input_required =>
      rcases convert_parts_fst_cases ⟨true, true⟩ (taskParts t) with ⟨vs, hv⟩ | he
      · refine .inr (.inr (.inr (.inl ⟨vs, ?_⟩)))
        rw [hres]
        simp [hs, hv]
      · refine .inr (.inr (.inr (.inr ?_)))
        rw [hres]
        simp [hs, he]
    all_goals {
      rcases convert_parts_fst_cases acts (taskParts t) with ⟨vs, hv⟩ | he
      · refine .inr (.inr (.inr (.inl ⟨vs, ?_⟩)))
        rw [hres]
        simp [hs, hv]
      · refine .inr (.inr (.inr (.inr ?_)))
        rw [hres]
        simp [hs, he]
    }

/-- C2: after `send_message` receives a task from the remote client, the
session state holds `agent = agent_name`, `task_id = task.id`,
`context_id = task.contextId` when that id is present (and non-empty — Python
truthiness; otherwise it is left unchanged), and
`session_active ↔ task state ∉ {completed, canceled, failed, unknown}`; when
the task state is `input_required` the call returns the needs-input signal —
both `escalate` and `skip_summarization` set — and (for parts of the protocol
kinds) returns normally rather than raising. -/
theorem send_message_task_state_updates (conns : List (String × Option Unit))
    (f : String) (t : Task) (an mt : String)
    (st : SessionState) (acts : ToolActions)
    (hlk : List.lookup an conns = some (some ())) :
    let o := send_message conns f (.task t) an mt st acts
    o.state.agent = some an ∧
    o.state.task_id = some t.id ∧
    (∀ c, t.contextId = some c → c ≠ "" → o.state.context_id = some c) ∧
    (t.contextId = none → o.state.context_id = st.context_id) ∧
    (t.contextId = some "" → o.state.context_id = st.context_id) ∧
    o.state.session_active = some (!(inactiveStates.contains t.status.state)) ∧
    (o.state.session_active = some true ↔ t.status.state ∉ inactiveStates) ∧
    (t.status.state = .input_required →
      o.actions.escalate = true ∧ o.actions.skip_summarization = true ∧
      ((∀ p ∈ taskParts t, knownKind p = true) → ∃ vs, o.result = .ok vs)) := by
  intro o
  have hstate : o.state = postState an t st :=
    send_message_task_state conns f t an mt st acts hlk
  have hctx : ∀ c, t.contextId = some c → c ≠ "" →
      (postState an t st).context_id = some c := by
    intro c hc hne
    unfold postState
    simp [hc, hne]
  have hctxn : t.contextId = none → (postState an t st).context_id = st.context_id := by
    intro hc
    unfold postState
    simp [hc]
  have hctxe : t.contextId = some "" →
      (postState an t st).context_id = st.context_id := by
    intro hc
    unfold postState
    simp [hc]
  have hagent : (postState an t st).agent = some an := by
    unfold postState
    cases t.contextId with
    | none => rfl
    | some c => by_cases hc : c = "" <;> simp [hc]
  have htid : (postState an t st).task_id = some t.id := by
    unfold postState
    cases t.contextId with
    | none => rfl
    | some c => by_cases hc : c = "" <;> simp [hc]
  have hact : (postState an t st).session_active =
      some (!(inactiveStates.contains t.status.state)) := by
    unfold postState
    cases t.contextId with
    | none => rfl
    | some c => by_cases hc : c = "" <;> simp [hc]
  refine ⟨hstate ▸ hagent, hstate ▸ htid,
    fun c hc hne => hstate ▸ hctx c hc hne,
    fun hc => hstate ▸ hctxn hc, fun hc => hstate ▸ hctxe hc,
    hstate ▸ hact, ?_, ?_⟩
  · rw [hstate, hact]
    cases hs : t.status.state <;> simp [inactiveStates, hs] <;> decide
  · intro hs
    have hacts : o.actions = (convert_parts ⟨true, true⟩ (taskParts t)).2.1 :=
      send_message_task_actions conns f t an mt st acts hlk hs
    have hpres := convert_parts_acts_preserved (taskParts t)
    constructor
    · rw [hacts, hpres]
    constructor
    · rw [hacts, hpres]
    · intro hknown
      rcases convert_parts_ok_of_known (taskParts t) ⟨true, true⟩ hknown with
        ⟨vs, a, effs, hok⟩
      refine ⟨vs, ?_⟩
      have hres := send_message_task_result conns f t an mt st acts hlk
      rw [hres, if_pos hs, hok]

/-- Witness for `send_message_task_state_updates`: the input-required scenario
of the design document, evaluated at a concrete task. -/
theorem send_message_task_state_updates_witness :
    (send_message conns0 "u1"
        (.task ⟨"T1", some "C1", ⟨.input_required, none⟩, []⟩)
        "toutiao_agent" "m" {} acts0).state.task_id = some "T1" ∧
    (send_message conns0 "u1"
        (.task ⟨"T1", some "C1", ⟨.input_required, none⟩, []⟩)
        "toutiao_agent" "m" {} acts0).actions.escalate = true := by
  have h := send_message_task_state_updates conns0 "u1"
    ⟨"T1", some "C1", ⟨.input_required, none⟩, []⟩ "toutiao_agent" "m" {} acts0 rfl
  exact ⟨h.2.1, (h.2.2.2.2.2.2.2 rfl).1⟩

/-- C3: the dispatch logic fails with `UnknownAgent` exactly when the target
name is not registered, with `ClientUnavailable` exactly when the name is
registered but the resolved handle is null, and — for a returned task — with
`RemoteTaskCanceled`/`RemoteTaskFailed` exactly when the task state is
`canceled`/`failed`; for every other returned task state the dispatch logic
raises none of these errors (the only exception still possible comes from
part conversion, not from the dispatch state machine). -/
theorem send_message_error_conditions (conns : List (String × Option Unit))
    (f : String) (r : A2AResponse) (an mt : String)
    (st : SessionState) (acts : ToolActions) :
    ((∃ x, (send_message conns f r an mt st acts).result = .error (.unknownAgent x)) ↔
      List.lookup an conns = none) ∧
    ((∃ x, (send_message conns f r an mt st acts).result = .error (.clientUnavailable x)) ↔
      List.lookup an conns = some none) ∧
    (∀ t, r = .task t → List.lookup an conns = some (some ()) →
      (((∃ x y, (send_message conns f r an mt st acts).result =
          .error (.remoteTaskCanceled x y)) ↔ t.status.state = .canceled) ∧
       ((∃ x y, (send_message conns f r an mt st acts).result =
          .error (.remoteTaskFailed x y)) ↔ t.status.state = .failed) ∧
       (t.status.state ≠ .canceled → t.status.state ≠ .failed →
         ∀ e, (send_message conns f r an mt st acts).result = .error e →
           e = .attributeErrorPartKind))) := by
  refine ⟨?_, ?_, ?_⟩
  · cases hlk : List.lookup an conns with
    | none =>
      rw [send_message_unknown conns f r an mt st acts hlk]
      exact ⟨fun _ => rfl, fun _ => ⟨an, rfl⟩⟩
    | some cl =>
      cases cl with
      | none =>
        rw [send_message_unavailable conns f r an mt st acts hlk]
        constructor
        · rintro ⟨x, hx⟩
          simp at hx
        · intro h
          simp at h
      | some u =>
        cases u
        constructor
        · rintro ⟨x, hx⟩
          rcases send_message_resolved_result conns f r an mt st acts hlk with
            h | ⟨t, _, _, h⟩ | ⟨t, _, _, h⟩ | ⟨vs, h⟩ | h <;> rw [h] at hx <;> simp at hx
        · intro h
          simp at h
  · cases hlk : List.lookup an conns with
    | none =>
      rw [send_message_unknown conns f r an mt st acts hlk]
      constructor
      · rintro ⟨x, hx⟩
        simp at hx
      · intro h
        simp at h
    | some cl =>
      cases cl with
      | none =>
        rw [send_message_unavailable conns f r an mt st acts hlk]
        exact ⟨fun _ => rfl, fun _ => ⟨an, rfl⟩⟩
      | some u =>
        cases u
        constructor
        · rintro ⟨x, hx⟩
          rcases send_message_resolved_result conns f r an mt st acts hlk with
            h | ⟨t, _, _, h⟩ | ⟨t, _, _, h⟩ | ⟨vs, h⟩ | h <;> rw [h] at hx <;> simp at hx
        · intro h
          simp at h
  · rintro t rfl hlk
    have hres := send_message_task_result conns f (t := t) an mt st acts hlk
    have hnotc : ∀ (a : ToolActions) (x y : String),
        (convert_parts a (taskParts t)).1 ≠ .error (.remoteTaskCanceled x y) := by
      intro a x y hx
      have := convert_parts_error_eq (taskParts t) a _ hx
      simp at this
    have hnotf : ∀ (a : ToolActions) (x y : String),
        (convert_parts a (taskParts t)).1 ≠ .error (.remoteTaskFailed x y) := by
      intro a x y hx
      have := convert_parts_error_eq (taskParts t) a _ hx
      simp at this
    refine ⟨?_, ?_, ?_⟩
    · rw [hres]
      cases hs : t.status.state <;> simp [hs]
      case input_required =>
        rintro x y hx
        exact hnotc ⟨true, true⟩ x y hx
      all_goals {
        rintro x y hx
        exact hnotc acts x y hx
      }
    · rw [hres]
      cases hs : t.status.state <;> simp [hs]
      case input_required =>
        rintro x y hx
        exact hnotf ⟨true, true⟩ x y hx
      all_goals {
        rintro x y hx
        exact hnotf acts x y hx
      }
    · intro hnc hnf e he
      rw [hres] at he
      cases hs : t.status.state
      case canceled => exact absurd hs hnc
      case failed => exact absurd hs hnf
      case input_required =>
        rw [hs] at he
        simp at he
        exact convert_parts_error_eq (taskParts t) ⟨true, true⟩ e he
      all_goals {
        rw [hs] at he
        simp at he
        exact convert_parts_error_eq (taskParts t) acts e he
      }

/-- Witness for `send_message_error_conditions`: dispatching to the registered
agent while the remote task comes back `canceled` raises `RemoteTaskCanceled`. -/
theorem send_message_error_conditions_witness :
    ∃ x y, (send_message conns0 "u" (.task tCanceled) "toutiao_agent" "m"
      {} acts0).result = .error (.remoteTaskCanceled x y) := by
  have h := (send_message_error_conditions conns0 "u" (.task tCanceled)
    "toutiao_agent" "m" {} acts0).2.2 tCanceled rfl rfl
  exact h.1.mpr rfl

/-- Fields of the dispatcher post-state that do not depend on the optional
context id of the task: `agent`, `task_id`, `message_id` (untouched — the
dispatcher never writes it back), `session_active`. -/
theorem postState_fields (an : String) (t : Task) (st : SessionState) :
    (postState an t st).agent = some an ∧
    (postState an t st).task_id = some t.id ∧
    (postState an t st).message_id = st.message_id ∧
    (postState an t st).session_active =
      some (!(inactiveStates.contains t.status.state)) := by
  unfold postState
  cases t.contextId with
  | none => exact ⟨rfl, rfl, rfl, rfl⟩
  | some c => by_cases hc : c = "" <;> simp [hc]

/-- C1 (counterexample to the claim as frozen): two consecutive dispatches in
one session, the first of which returns `input_required`. The second call
reuses the returned `task_id` and `context_id` — but not the `message_id`: the
uuid generated at call 1 (`"uuid-1"`) is never written into session state
(`o1.state.message_id` is still absent), so call 2 draws and sends a fresh
fresh uuid-2, contradicting the claim that call n+1 sends the same message_id
as call n and that a generated id stays stable for retries of the same task
turn. -/
theorem message_id_not_reused_counterexample :
    let o1 := send_message conns0 "uuid-1" (.task tInputRequired)
      "toutiao_agent" "q1" {} acts0
    let o2 := send_message conns0 "uuid-2" (.task tInputRequired)
      "toutiao_agent" "q2" o1.state o1.actions
    o1.actions.escalate = true ∧
    o1.state.message_id = none ∧
    o1.request.map OutRequest.messageId = some "uuid-1" ∧
    o2.request.map OutRequest.messageId = some "uuid-2" ∧
    o2.request.map OutRequest.taskId = some (some "T1") ∧
    o2.request.map OutRequest.contextId = some (some "C1") ∧
    o1.request.map OutRequest.messageId ≠ o2.request.map OutRequest.messageId := by
  exact ⟨rfl, rfl, rfl, rfl, rfl, rfl, by decide⟩

/-- C1 (amended): after a dispatch returns a task in `input_required`, the
next dispatch in the session reuses the same `task_id` and `context_id` — the
dispatcher wrote the returned task ids into session state and reads them
back — but not the same `message_id`: since the generated id is never
persisted, a state without a stored `message_id` makes every call draw a
fresh uuid, so the id sent by call n+1 is exactly its own fresh draw. -/
theorem continuation_ids_after_input_required
    (conns : List (String × Option Unit)) (f1 f2 : String) (t : Task)
    (an mt1 mt2 : String) (st : SessionState) (acts acts2 : ToolActions)
    (r2 : A2AResponse) (c : String)
    (hlk : List.lookup an conns = some (some ()))
    (_hir : t.status.state = .input_required)
    (hmid : st.message_id = none)
    (hc : t.contextId = some c) (hcne : c ≠ "") :
    let o1 := send_message conns f1 (.task t) an mt1 st acts
    let o2 := send_message conns f2 r2 an mt2 o1.state acts2
    o1.state.message_id = none ∧
    o2.request = some ⟨f2, some t.id, some c, mt2⟩ := by
  intro o1 o2
  have hstate : o1.state = postState an t st :=
    send_message_task_state conns f1 t an mt1 st acts hlk
  have hfields := postState_fields an t st
  have hmid1 : o1.state.message_id = none := by
    rw [hstate, hfields.2.2.1, hmid]
  have hctx : o1.state.context_id = some c := by
    rw [hstate]
    unfold postState
    simp [hc, hcne]
  have htid : o1.state.task_id = some t.id := by
    rw [hstate, hfields.2.1]
  have hreq := send_message_request_eq conns f2 r2 an mt2 o1.state acts2 hlk
  refine ⟨hmid1, ?_⟩
  rw [hreq, htid, hctx]
  have : effectiveMessageId o1.state f2 = f2 := by
    unfold effectiveMessageId
    rw [hmid1]
  rw [this]

/-- Witness for `continuation_ids_after_input_required` at the concrete
input-required scenario. -/
theorem continuation_ids_after_input_required_witness :
    (send_message conns0 "uuid-2" (.task tInputRequired) "toutiao_agent" "q2"
      (send_message conns0 "uuid-1" (.task tInputRequired) "toutiao_agent" "q1"
        {} acts0).state acts0).request =
      some ⟨"uuid-2", some "T1", some "C1", "q2"⟩ := by
  have h := continuation_ids_after_input_required conns0 "uuid-1" "uuid-2"
    tInputRequired "toutiao_agent" "q1" "q2" {} acts0 acts0
    (.task tInputRequired) "C1" rfl rfl rfl rfl (by decide)
  exact h.2

/-- C10: with `config.with_record` false, every recorder save operation
returns immediately: no directory creation, no file write, and the sequence
state (`last_formatted_time`, `idx`) is returned unchanged. -/
theorem save_ops_noop_without_record :
    ∀ (root : String) (st : RecorderState) (t fn text : String)
      (data : PyVal) (esc : Bool),
      save_text false root st t fn text = (st, []) ∧
      save_image false root st t fn = (st, []) ∧
      save_yaml false root st t fn data = (st, []) ∧
      save_json false root st t fn data esc = (st, []) := by
  intro root st t fn text data esc
  exact ⟨rfl, rfl, rfl, rfl⟩

/-- C6: classification of a final step by the execution loop. A mapping with a
nested `response.result` JSON string that parses is emitted as a final
`input_required` status carrying the parsed payload; a mapping without the
`response` key, or whose `response` mapping lacks `result`, is emitted as a
final `failed` status; a plain string is emitted as exactly one artifact named
`form` holding that string, followed by completion. (Each case is evaluated
on a single-item stream; the queued progress messages are flushed first.) -/
theorem execute_final_step_classification
    (parse : String → Except PyError PyVal)
    (findImages : PyVal → List (String × String)) (msgs : List String) :
    (∀ (d r : List (String × PyVal)) (s : String) (j : PyVal),
      List.lookup "response" d = some (.dict r) →
      List.lookup "result" r = some (.str s) →
      parse s = .ok j →
      executeLoop parse findImages [⟨msgs, true, .dict d⟩] =
        .ok (msgs.map Emit.statusWorking ++ [.statusInputRequired j])) ∧
    (∀ d : List (String × PyVal), List.lookup "response" d = none →
      executeLoop parse findImages [⟨msgs, true, .dict d⟩] =
        .ok (msgs.map Emit.statusWorking ++ [.statusFailed])) ∧
    (∀ (d r : List (String × PyVal)),
      List.lookup "response" d = some (.dict r) →
      List.lookup "result" r = none →
      executeLoop parse findImages [⟨msgs, true, .dict d⟩] =
        .ok (msgs.map Emit.statusWorking ++ [.statusFailed])) ∧
    (∀ s : String, executeLoop parse findImages [⟨msgs, true, .str s⟩] =
      .ok (msgs.map Emit.statusWorking ++ [.textArtifact "form" s, .completedEmit])) := by
  refine ⟨?_, ?_, ?_, ?_⟩
  · intro d r s j hresp hres hp
    simp [executeLoop, formGuard, formPayload, pyContains, pyIndex, json_loads, Except.map, hresp, hres, hp]
  · intro d hresp
    simp [executeLoop, formGuard, pyContains, pyIndex, hresp]
  · intro d r hresp hres
    simp [executeLoop, formGuard, pyContains, pyIndex, hresp, hres]
  · intro s
    simp [executeLoop]

/-- Witness for `execute_final_step_classification` at the two concrete
scenarios of the design document: the form payload and the plain `"Done"`. -/
theorem execute_final_step_classification_witness :
    executeLoop (fun _ => .ok (.dict [("a", .int 1)])) (fun _ => [])
      [⟨[], true, .dict [("response", .dict [("result", .str "x")])]⟩] =
      .ok [.statusInputRequired (.dict [("a", .int 1)])] ∧
    executeLoop (fun _ => .ok (.dict [("a", .int 1)])) (fun _ => [])
      [⟨[], true, .str "Done"⟩] =
      .ok [.textArtifact "form" "Done", .completedEmit] := by
  have h := execute_final_step_classification
    (fun _ => .ok (.dict [("a", .int 1)])) (fun _ => []) []
  exact ⟨h.1 [("response", .dict [("result", .str "x")])]
    [("result", .str "x")] "x" (.dict [("a", .int 1)]) rfl rfl rfl, h.2.2.2 "Done"⟩

/-- C7 (amended): `completed` and `failed` are final for the turn — after
emitting either for a final step the loop `break`s, so it processes none of
the remaining stream items and emits nothing further, whatever the rest of
the stream holds. The `input_required` emission, however, is followed by
`continue` (`orchestrator_executor.py:225`), so the loop keeps consuming the
stream and appends whatever events the remaining items produce — including
further terminal transitions. -/
theorem terminal_transitions_loop_behavior
    (parse : String → Except PyError PyVal)
    (findImages : PyVal → List (String × String)) (msgs : List String)
    (rest : List StreamItem) :
    (∀ d : List (String × PyVal), List.lookup "response" d = none →
      executeLoop parse findImages (⟨msgs, true, .dict d⟩ :: rest) =
        .ok (msgs.map Emit.statusWorking ++ [.statusFailed])) ∧
    (∀ (d r : List (String × PyVal)),
      List.lookup "response" d = some (.dict r) →
      List.lookup "result" r = none →
      executeLoop parse findImages (⟨msgs, true, .dict d⟩ :: rest) =
        .ok (msgs.map Emit.statusWorking ++ [.statusFailed])) ∧
    (∀ s : String,
      executeLoop parse findImages (⟨msgs, true, .str s⟩ :: rest) =
        .ok (msgs.map Emit.statusWorking ++ [.textArtifact "form" s, .completedEmit])) ∧
    (∀ (d r : List (String × PyVal)) (s : String) (j : PyVal),
      List.lookup "response" d = some (.dict r) →
      List.lookup "result" r = some (.str s) →
      parse s = .ok j →
      executeLoop parse findImages (⟨msgs, true, .dict d⟩ :: rest) =
        (executeLoop parse findImages rest).map
          (fun es => msgs.map Emit.statusWorking ++ [Emit.statusInputRequired j] ++ es)) := by
  refine ⟨?_, ?_, ?_, ?_⟩
  · intro d hresp
    simp [executeLoop, formGuard, pyContains, pyIndex, hresp]
  · intro d r hresp hres
    simp [executeLoop, formGuard, pyContains, pyIndex, hresp, hres]
  · intro s
    simp [executeLoop]
  · intro d r s j hresp hres hp
    simp [executeLoop, formGuard, formPayload, pyContains, pyIndex, json_loads, Except.map, hresp, hres, hp]

/-- Witness for `terminal_transitions_loop_behavior`: a failed-shape final
step at the head of a two-item stream ends the turn without touching the
second item. -/
theorem terminal_transitions_loop_behavior_witness :
    executeLoop (fun _ => .ok .null) (fun _ => [])
      [⟨[], true, .dict [("oops", .int 1)]⟩, ⟨[], true, .str "Done"⟩] =
      .ok [Emit.statusFailed] := by
  have h := terminal_transitions_loop_behavior (fun _ => .ok .null) (fun _ => [])
    [] [⟨[], true, .str "Done"⟩]
  exact h.1 [("oops", .int 1)] rfl

/-- C7 (counterexample to the claim as frozen): a stream with two final
form-shaped items. The first `input_required` emission is followed by
`continue`, so the loop processes the second item too and emits a second
terminal transition — the run ends with two terminal events, refuting the
claim that after a terminal emission for a final step the loop processes no
further steps of the stream and emits no further terminal transition. -/
theorem input_required_not_final_counterexample :
    executeLoop parse0 find0 [formItem, formItem] =
      .ok [.statusInputRequired (.dict []), .statusInputRequired (.dict [])] ∧
    [Emit.statusInputRequired (.dict []),
      Emit.statusInputRequired (.dict [])].countP (fun e => isTerminalEmit e) = 2 :=
  ⟨rfl, rfl⟩

/-- The rotating alphabet has no repeated character. -/
theorem tags_nodup : tags.Nodup := by decide

/-- The rotating alphabet has 62 symbols. -/
theorem tags_length : tags.length = 62 := by decide

/-- Sequence state of a run of calls sharing one formatted timestamp: after
`n + 1` calls, the stored timestamp is `t` and the index is `n % 62`. -/
theorem stateAfter_eq (st : RecorderState) (t : String)
    (h : st.last_formatted_time ≠ some t) :
    ∀ n, stateAfter st t (n + 1) = ⟨some t, n % 62⟩ := by
  intro n
  induction n with
  | zero =>
    show (make_filename (stateAfter st t 0) t "x").1 = _
    simp [stateAfter, make_filename, h]
  | succ n ih =>
    show (make_filename (stateAfter st t (n + 1)) t "x").1 = _
    rw [ih]
    simp [make_filename, tags_length]

/-- The rotation index of the `n`-th call in a run sharing one formatted
timestamp is `n % 62`. -/
theorem idxOfCall_eq (st : RecorderState) (t : String)
    (h : st.last_formatted_time ≠ some t) (n : Nat) :
    idxOfCall st t n = n % 62 := by
  unfold idxOfCall
  rw [stateAfter_eq st t h n]

/-- C8: `make_filename` generates `<formatted-time>.<seq>-<logical_name>`
with `seq` one character of the fixed rotating alphabet; the alphabet has 62
symbols (not 63); the sequence resets to the first symbol (`'0'`) whenever
the formatted millisecond timestamp differs from that of the previous call;
within
one millisecond, consecutive calls receive pairwise distinct tags up to the
alphabet size, and the 63rd call wraps around to the first tag again, so
distinctness holds exactly up to 62. -/
theorem make_filename_rotation (st : RecorderState) (t fname : String)
    (h : st.last_formatted_time ≠ some t) :
    tags.length = 62 ∧
    (make_filename st t fname).2 =
      t ++ "." ++ (tags.getD (make_filename st t fname).1.idx ' ').toString
        ++ "-" ++ fname ∧
    (make_filename st t fname).1 = ⟨some t, 0⟩ ∧
    tagOfCall st t 0 = '0' ∧
    (∀ i j, i < j → j < 62 → tagOfCall st t i ≠ tagOfCall st t j) ∧
    tagOfCall st t 62 = tagOfCall st t 0 := by
  refine ⟨tags_length, rfl, ?_, ?_, ?_, ?_⟩
  · simp [make_filename, h]
  · unfold tagOfCall
    rw [idxOfCall_eq st t h 0]
    decide
  · intro i j hij hj hcontra
    unfold tagOfCall at hcontra
    rw [idxOfCall_eq st t h i, idxOfCall_eq st t h j,
      Nat.mod_eq_of_lt (by omega), Nat.mod_eq_of_lt (by omega)] at hcontra
    have hi' : i < tags.length := by rw [tags_length]; omega
    have hj' : j < tags.length := by rw [tags_length]; omega
    rw [List.getD_eq_getElem tags ' ' hi', List.getD_eq_getElem tags ' ' hj']
      at hcontra
    have := (List.Nodup.getElem_inj_iff tags_nodup).1 hcontra
    omega
  · unfold tagOfCall
    rw [idxOfCall_eq st t h 62, idxOfCall_eq st t h 0]

/-- Witness for `make_filename_rotation`: a fresh recorder observing one
timestamp gives the first two calls distinct tags. -/
theorem make_filename_rotation_witness :
    tagOfCall ⟨none, 0⟩ "0702-103045.123" 0 ≠
      tagOfCall ⟨none, 0⟩ "0702-103045.123" 1 :=
  (make_filename_rotation ⟨none, 0⟩ "0702-103045.123" "state.json"
    (by simp)).2.2.2.2.1 0 1 (by omega) (by omega)

/-- C9 (counterexample to the claim as frozen): the hooks contain no
`try/except` — at this concrete input the recorder write inside
`before_agent` fails with `OSError` and the hook returns that very exception
to its caller instead of swallowing it, refuting the claim that the hook
swallows the failure, logs, continues and never propagates an exception to
the caller. -/
theorem hook_propagates_recorder_failure_counterexample :
    before_agent ⟨fun _ => .error .osError, true, fun _ => .ok 1⟩
      ⟨"leon", "s1", "orchestrator"⟩ "inv-123456" "root_agent" (.dict []) =
      .error .osError := rfl

/-- C9 (amended): the lifecycle hooks are not best-effort. They perform the
recorder write and (when the store is open) the dialogue append with no
exception handler: a failure of either propagates unchanged to the caller,
and the hook returns normally exactly when every write it attempts
succeeds — shown here for the two cited hooks, `before_agent` and
`after_tool` (the remaining hooks have the identical straight-line shape). -/
theorem hooks_propagate_write_failures (env : HookEnv) (ctx : HookCtx)
    (inv an tn : String) (sd resp : PyVal) :
    (∀ e, env.recorderWrite (lastSix inv ++ ".BA." ++ an ++ ".state.json") =
        .error e → before_agent env ctx inv an sd = .error e) ∧
    (env.recorderWrite (lastSix inv ++ ".BA." ++ an ++ ".state.json") = .ok () →
      env.history_open = true →
      ∀ e, env.appendRecord ⟨ctx.user_id, ctx.session_id, ctx.app_name, inv, an,
          "before_agent", "state", sd⟩ = .error e →
        before_agent env ctx inv an sd = .error e) ∧
    (env.recorderWrite (lastSix inv ++ ".BA." ++ an ++ ".state.json") = .ok () →
      env.history_open = false →
      before_agent env ctx inv an sd = .ok ()) ∧
    (∀ e, env.recorderWrite
        (lastSix inv ++ ".AT." ++ an ++ "." ++ tn ++ ".response.json") =
        .error e → after_tool env ctx inv an tn resp = .error e) ∧
    (env.recorderWrite
        (lastSix inv ++ ".AT." ++ an ++ "." ++ tn ++ ".response.json") = .ok () →
      env.history_open = true →
      ∀ e, env.appendRecord ⟨ctx.user_id, ctx.session_id, ctx.app_name, inv, an,
          "after_tool", tn, resp⟩ = .error e →
        after_tool env ctx inv an tn resp = .error e) := by
  refine ⟨?_, ?_, ?_, ?_, ?_⟩
  · intro e h1
    unfold before_agent
    rw [h1]
  · intro h1 hopen e h2
    unfold before_agent
    rw [h1]
    simp [hopen, h2]
  · intro h1 hopen
    unfold before_agent
    rw [h1]
    simp [hopen]
  · intro e h1
    unfold after_tool
    rw [h1]
  · intro h1 hopen e h2
    unfold after_tool
    rw [h1]
    simp [hopen, h2]

/-- Witness for `hooks_propagate_write_failures`: with a failing store append
in an open-store environment, `before_agent` returns the database error. -/
theorem hooks_propagate_write_failures_witness :
    before_agent ⟨fun _ => .ok (), true, fun _ => .error .dbError⟩
      ⟨"leon", "s1", "orchestrator"⟩ "inv-123456" "root_agent" (.dict []) =
      .error .dbError :=
  (hooks_propagate_write_failures ⟨fun _ => .ok (), true, fun _ => .error .dbError⟩
    ⟨"leon", "s1", "orchestrator"⟩ "inv-123456" "root_agent" "tool" (.dict [])
    (.dict [])).2.1 rfl rfl .dbError rfl

end Aigc
